import Mathlib

/-!
Verification of the metadata-resolution and deduplication pipeline of the
google-photo repository (sort_photo.py, google_takeout_organizer_final.py,
rerun_version.py, test_function.py).

The Python sources are shallowly embedded: module-level mutable lists and
dicts become explicit state records threaded through the functions,
`datetime` values become a plain record of numeric fields, float
coordinates become exact rationals, and the external libraries (exifread,
json sidecar parsing, ffprobe, reverse_geocoder, the filesystem) become
oracle inputs carried by the asset or passed as function arguments, since
their outputs are data the pipeline merely consumes.  Every definition
mirrors the control flow of the corresponding Python function; comments
name the source function each definition embeds.
-/

/-! ### Dates, as produced by Python datetime -/

/-- Embedding of a Python `datetime` value: plain calendar/time fields. -/
structure DateTime where
  year : Nat
  month : Nat
  day : Nat
  hour : Nat
  minute : Nat
  second : Nat
deriving DecidableEq

/-- Gregorian leap-year test, as validated by the `datetime` constructor. -/
def isLeap (y : Nat) : Bool := y % 4 == 0 && (y % 100 != 0 || y % 400 == 0)

/-- Days in a month, as validated by the `datetime` constructor. -/
def daysInMonth (y m : Nat) : Nat :=
  if m == 2 then (if isLeap y then 29 else 28)
  else if m == 4 || m == 6 || m == 9 || m == 11 then 30
  else 31

/-- Python `datetime(y, m, d)` succeeds exactly on these values; outside them it
raises `ValueError`, which the filename parsers catch. -/
def validDate (y m d : Nat) : Bool :=
  1 ≤ y && y ≤ 9999 && 1 ≤ m && m ≤ 12 && 1 ≤ d && d ≤ daysInMonth y m

/-! ### String helpers shared by the scripts -/

/-- ASCII decimal digit test, the model of the regex class backslash-d
(the scripts only ever feed ASCII filenames to it). -/
def isDig (c : Char) : Bool := 48 ≤ c.toNat && c.toNat ≤ 57

/-- Numeric value of an ASCII digit character. -/
def dv (c : Char) : Nat := c.toNat - 48

/-- Zero-padded two-digit rendering, the model of the format spec 02
used for month and day directory names. -/
def pad2 (n : Nat) : String := if n < 10 then "0" ++ Nat.repr n else Nat.repr n

/-- Model of `os.path.basename`: the part after the last path separator. -/
def basenameAux : List Char → List Char → List Char
  | [], acc => acc.reverse
  | c :: rest, acc => if c = '/' then basenameAux rest [] else basenameAux rest (c :: acc)

/-- Model of `os.path.basename` on slash-separated paths. -/
def basename (p : String) : String := ⟨basenameAux p.data []⟩

/-- Position of the last dot of a name, if usable as an extension split
point (a dot preceded only by dots yields no extension, mirroring
`os.path.splitext` on leading-dot names). -/
def lastDotPos (cs : List Char) : Option Nat :=
  match (cs.reverse.indexOf? '.') with
  | none => none
  | some k =>
    let p := cs.length - 1 - k
    if (cs.take p).all (fun c => c = '.') then none else some p

/-- Model of `os.path.splitext`: split a base name into stem and extension. -/
def splitext (b : String) : String × String :=
  match lastDotPos b.data with
  | none => (b, "")
  | some p => (⟨b.data.take p⟩, ⟨b.data.drop p⟩)

/-- Case-folded suffix test, the model of `str.lower().endswith(suffix)`
for the ASCII extension literals the scripts use. -/
def lowerEndsWith (s suffix : String) : Bool :=
  List.isSuffixOf suffix.data (s.data.map Char.toLower)

/-- Association-list lookup, the model of Python dict lookup (one binding
per key; the scripts only insert fresh keys). -/
def alookup {α β : Type} [DecidableEq α] : List (α × β) → α → Option β
  | [], _ => none
  | (k, v) :: rest, key => if key = k then some v else alookup rest key

/-! ### Filename date patterns

`re.search` with the date regexes of the two scripts.  Each pattern is a
fixed-length alternation-free regex, so searching is: try to match at
every position, left to right, and return the first match.  The separator
class matches dash or underscore; since neither is a digit, the greedy
optional separator of the organizer pattern is deterministic. -/

/-- Dash-or-underscore separator class of the date regexes. -/
def isSep (c : Char) : Bool := c = '-' || c = '_'

/-- Try pattern `(20dd)(dd)(dd)` at the head of the character list. -/
def p1At : List Char → Option (Nat × Nat × Nat)
  | c0 :: c1 :: y3 :: y4 :: m1 :: m2 :: d1 :: d2 :: _ =>
    if c0 = '2' && c1 = '0' && isDig y3 && isDig y4 && isDig m1 && isDig m2
        && isDig d1 && isDig d2 then
      some (2000 + 10 * dv y3 + dv y4, 10 * dv m1 + dv m2, 10 * dv d1 + dv d2)
    else none
  | _ => none

/-- Try pattern `(20dd)[-_](dd)[-_](dd)` at the head of the list. -/
def p2At : List Char → Option (Nat × Nat × Nat)
  | c0 :: c1 :: y3 :: y4 :: s1 :: m1 :: m2 :: s2 :: d1 :: d2 :: _ =>
    if c0 = '2' && c1 = '0' && isDig y3 && isDig y4 && isSep s1 && isDig m1
        && isDig m2 && isSep s2 && isDig d1 && isDig d2 then
      some (2000 + 10 * dv y3 + dv y4, 10 * dv m1 + dv m2, 10 * dv d1 + dv d2)
    else none
  | _ => none

/-- Try pattern `(20dd)(dd)(dd)[_-]dddddd` at the head of the list. -/
def p3At : List Char → Option (Nat × Nat × Nat)
  | c0 :: c1 :: y3 :: y4 :: m1 :: m2 :: d1 :: d2 :: s :: t1 :: t2 :: t3 :: t4 :: t5 :: t6 :: _ =>
    if c0 = '2' && c1 = '0' && isDig y3 && isDig y4 && isDig m1 && isDig m2
        && isDig d1 && isDig d2 && isSep s && isDig t1 && isDig t2 && isDig t3
        && isDig t4 && isDig t5 && isDig t6 then
      some (2000 + 10 * dv y3 + dv y4, 10 * dv m1 + dv m2, 10 * dv d1 + dv d2)
    else none
  | _ => none

/-- Consume one optional separator, the `[-_]?` regex piece.  A separator
is never a digit, so greedy matching is deterministic here. -/
def skipSep : List Char → List Char
  | [] => []
  | c :: rest => if isSep c then rest else c :: rest

/-- Try the organizer pattern `(20dd)[-_]?(dd)[-_]?(dd)` at the head. -/
def pOrgAt : List Char → Option (Nat × Nat × Nat)
  | c0 :: c1 :: y3 :: y4 :: rest =>
    if c0 = '2' && c1 = '0' && isDig y3 && isDig y4 then
      match skipSep rest with
      | m1 :: m2 :: rest2 =>
        if isDig m1 && isDig m2 then
          match skipSep rest2 with
          | d1 :: d2 :: _ =>
            if isDig d1 && isDig d2 then
              some (2000 + 10 * dv y3 + dv y4, 10 * dv m1 + dv m2, 10 * dv d1 + dv d2)
            else none
          | _ => none
        else none
      | _ => none
    else none
  | _ => none

/-- Model of `re.search`: return the leftmost position where the matcher succeeds. -/
def searchWith {α : Type} (f : List Char → Option α) : List Char → Option α
  | [] => none
  | c :: rest =>
    match f (c :: rest) with
    | some r => some r
    | none => searchWith f rest

/-- Turn a matched year/month/day triple into a date, or nothing when the
`datetime` constructor would raise `ValueError`.  A match with invalid
components therefore behaves exactly like no match at all, which is what
the `except ValueError: pass` in both scripts implements. -/
def toValid (r : Option (Nat × Nat × Nat)) : Option DateTime :=
  r.bind fun t =>
    if validDate t.1 t.2.1 t.2.2 then some ⟨t.1, t.2.1, t.2.2, 0, 0, 0⟩ else none

/-! ### Injectivity of decimal rendering

The collision loop of `safe_copy` builds candidate names with the format
string producing `name_i` + extension; distinct counters give distinct
names because decimal rendering of naturals is injective.  We prove that
fact about `Nat.repr` by exhibiting a decoder. -/

/-- Decode a decimal digit string, most significant digit first. -/
def decDigits (l : List Char) : Nat := l.foldl (fun acc c => 10 * acc + dv c) 0

lemma decDigits_append (xs : List Char) (c : Char) :
    decDigits (xs ++ [c]) = 10 * decDigits xs + dv c := by
  simp [decDigits, List.foldl_append]

lemma toDigitsCore_acc (f n : Nat) (ds : List Char) :
    Nat.toDigitsCore 10 f n ds = Nat.toDigitsCore 10 f n [] ++ ds := by
  induction f generalizing n ds with
  | zero => simp [Nat.toDigitsCore]
  | succ f ih =>
    simp only [Nat.toDigitsCore]
    by_cases h : n / 10 = 0
    · simp [h]
    · simp only [h, if_false]
      rw [ih (n / 10) (Nat.digitChar (n % 10) :: ds),
        ih (n / 10) [Nat.digitChar (n % 10)]]
      simp

lemma digitChar_dv (n : Nat) (h : n < 10) : dv (Nat.digitChar n) = n := by
  revert n h; decide

lemma decDigits_toDigitsCore (f : Nat) : ∀ n : Nat, n < f →
    decDigits (Nat.toDigitsCore 10 f n []) = n := by
  induction f with
  | zero => intro n h; omega
  | succ f ih =>
    intro n h
    simp only [Nat.toDigitsCore]
    by_cases h0 : n / 10 = 0
    · have hn : n < 10 := by omega
      have hmod : n % 10 = n := Nat.mod_eq_of_lt hn
      simp [h0, decDigits, hmod, digitChar_dv n hn]
    · simp only [h0, if_false]
      rw [toDigitsCore_acc, decDigits_append]
      have hlt : n / 10 < f := by
        have h1 : n / 10 < n := Nat.div_lt_self (by omega) (by omega)
        omega
      rw [ih (n / 10) hlt, digitChar_dv (n % 10) (Nat.mod_lt n (by omega))]
      omega

lemma decDigits_repr (n : Nat) : decDigits (Nat.repr n).data = n := by
  have h : (Nat.repr n).data = Nat.toDigitsCore 10 (n + 1) n [] := rfl
  rw [h, decDigits_toDigitsCore (n + 1) n (Nat.lt_succ_self n)]

lemma repr_injective : Function.Injective Nat.repr := by
  intro a b h
  have := congrArg (fun s => decDigits (String.data s)) h
  simpa [decDigits_repr] using this

/-! ### safe_copy of sort_photo.py and google_takeout_organizer_final.py

Both scripts define the same `safe_copy(src, dest_dir)`: create the
directory, then try `dest_dir/base`, and while the name exists append an
increasing counter, `name_i` + extension, finally performing one copy to
the chosen name.  The filesystem is modelled as the list of file paths
that exist; `safe_copy` returns the new list together with the chosen
destination path. -/

/-- Candidate name for counter `i`: the format string of the while loop,
joined under the destination directory. -/
def sc_name (dest_dir name ext : String) (i : Nat) : String :=
  dest_dir ++ "/" ++ name ++ "_" ++ Nat.repr i ++ ext

lemma sc_name_injective (dest_dir name ext : String) :
    Function.Injective (sc_name dest_dir name ext) := by
  intro a b h
  apply repr_injective
  apply String.ext
  have hd := congrArg String.data h
  simp only [sc_name, String.data_append] at hd
  have h1 := List.append_cancel_right hd
  exact List.append_cancel_left h1

lemma exists_fresh {α : Type} [DecidableEq α] (f : Nat → α) (hf : Function.Injective f)
    (l : List α) : ∃ n, f n ∉ l := by
  by_contra hcon
  push_neg at hcon
  have hsub : Finset.image f (Finset.range (l.length + 1)) ⊆ l.toFinset := by
    intro x hx
    simp only [Finset.mem_image, Finset.mem_range] at hx
    obtain ⟨n, _, rfl⟩ := hx
    exact List.mem_toFinset.2 (hcon n)
  have h1 : (Finset.range (l.length + 1)).card ≤ l.toFinset.card := by
    calc (Finset.range (l.length + 1)).card
        = (Finset.image f (Finset.range (l.length + 1))).card :=
          (Finset.card_image_of_injective _ hf).symm
      _ ≤ l.toFinset.card := Finset.card_le_card hsub
  have h2 : l.toFinset.card ≤ l.length := l.toFinset_card_le
  simp only [Finset.card_range] at h1
  omega

lemma sc_fresh_exists (fs : List String) (dest_dir name ext : String) :
    ∃ n, sc_name dest_dir name ext (n + 1) ∉ fs :=
  match exists_fresh (fun n => sc_name dest_dir name ext (n + 1))
      (fun a b h => by simpa using sc_name_injective dest_dir name ext h) fs with
  | ⟨n, hn⟩ => ⟨n, hn⟩

/-- Model of `safe_copy` of sort_photo.py (the organizer has the identical body):
pick `dest_dir/base` if free, otherwise the first suffixed name that is
free, then copy.  Returns the filesystem with the copy performed and the
final destination path. -/
def safe_copy (fs : List String) (src dest_dir : String) : List String × String :=
  let base := basename src
  let ne := splitext base
  let dest0 := dest_dir ++ "/" ++ base
  if dest0 ∈ fs then
    let i := Nat.find (sc_fresh_exists fs dest_dir ne.1 ne.2)
    let dest := sc_name dest_dir ne.1 ne.2 (i + 1)
    (fs ++ [dest], dest)
  else (fs ++ [dest0], dest0)

/-- Model of `os.makedirs(d, exist_ok=True)` on a list of existing directories. -/
def makedirs (dirs : List String) (d : String) : List String :=
  if d ∈ dirs then dirs else dirs ++ [d]

/-- Shared specification of `safe_copy`: the chosen destination never
names an existing file, the copy adds exactly that file, a free base name
is used unchanged, and an occupied base name is replaced by the first
free suffixed name, every smaller counter being occupied. -/
lemma safe_copy_eq_pos (fs : List String) (src dest_dir : String)
    (h : dest_dir ++ "/" ++ basename src ∈ fs) :
    safe_copy fs src dest_dir =
      (fs ++ [sc_name dest_dir (splitext (basename src)).1 (splitext (basename src)).2
          (Nat.find (sc_fresh_exists fs dest_dir (splitext (basename src)).1
            (splitext (basename src)).2) + 1)],
        sc_name dest_dir (splitext (basename src)).1 (splitext (basename src)).2
          (Nat.find (sc_fresh_exists fs dest_dir (splitext (basename src)).1
            (splitext (basename src)).2) + 1)) := by
  simp only [safe_copy]
  rw [if_pos h]

lemma safe_copy_eq_neg (fs : List String) (src dest_dir : String)
    (h : dest_dir ++ "/" ++ basename src ∉ fs) :
    safe_copy fs src dest_dir =
      (fs ++ [dest_dir ++ "/" ++ basename src], dest_dir ++ "/" ++ basename src) := by
  simp only [safe_copy]
  rw [if_neg h]

lemma safe_copy_spec (fs : List String) (src dest_dir : String) :
    (safe_copy fs src dest_dir).2 ∉ fs ∧
    (safe_copy fs src dest_dir).1 = fs ++ [(safe_copy fs src dest_dir).2] ∧
    (dest_dir ++ "/" ++ basename src ∉ fs →
      (safe_copy fs src dest_dir).2 = dest_dir ++ "/" ++ basename src) ∧
    (dest_dir ++ "/" ++ basename src ∈ fs →
      ∃ i, 1 ≤ i ∧
        (safe_copy fs src dest_dir).2 =
          sc_name dest_dir (splitext (basename src)).1 (splitext (basename src)).2 i ∧
        ∀ j, 1 ≤ j → j < i →
          sc_name dest_dir (splitext (basename src)).1 (splitext (basename src)).2 j ∈ fs) := by
  by_cases h : dest_dir ++ "/" ++ basename src ∈ fs
  · rw [safe_copy_eq_pos fs src dest_dir h]
    refine ⟨Nat.find_spec (sc_fresh_exists fs dest_dir _ _), rfl, fun hc => absurd h hc,
      fun _ => ⟨Nat.find (sc_fresh_exists fs dest_dir _ _) + 1, by omega, rfl, ?_⟩⟩
    intro j h1 h2
    have hm := Nat.find_min (sc_fresh_exists fs dest_dir (splitext (basename src)).1
      (splitext (basename src)).2) (m := j - 1) (by omega)
    simp only [not_not] at hm
    have hj : j - 1 + 1 = j := by omega
    rwa [hj] at hm
  · rw [safe_copy_eq_neg fs src dest_dir h]
    exact ⟨h, rfl, fun _ => rfl, fun hc => absurd hc h⟩

/-! ### sort_photo.py

Module state: `hash_index` (the fingerprint index, digest to destination
path), the anomaly lists, and the output filesystem.  `file_hash` is a
sha256 hexdigest of the file content; the digest is carried by the asset
as an abstract string determined by the content.  `read_exif`,
`read_metadata_json` and `os.path.getmtime` are external readers whose
outcomes (a timestamp or nothing) the asset carries. -/

namespace sort_photo

def TARGET_DIR : String := "photo"

def UNCLASSIFIED_DIR : String := TARGET_DIR ++ "/unclassified"

/-- Model of `datetime_from_filename` of sort_photo.py: try the three patterns in
order; a match whose components `datetime` rejects falls through to the
next pattern (`except ValueError: pass`). -/
def datetime_from_filename (filename : String) : Option DateTime :=
  match toValid (searchWith p1At filename.data) with
  | some dt => some dt
  | none =>
  match toValid (searchWith p2At filename.data) with
  | some dt => some dt
  | none => toValid (searchWith p3At filename.data)

/-- One media asset together with the outcomes of its external metadata
readers: `exifDT` from `read_exif`, `jsonDT` from `read_metadata_json`,
`mtime` from `os.path.getmtime` (nothing when the call raises). -/
structure Asset where
  path : String
  digest : String
  exifDT : Option DateTime
  jsonDT : Option DateTime
  mtime : Option DateTime
deriving DecidableEq

/-- Model of `resolve_datetime` of sort_photo.py.  Returns the resolved timestamp
and whether the filename fallback supplied it (the script appends to
`filename_fallback_files` at that point; the flag carries that append to
`process_media`, which owns the state here). -/
def resolve_datetime (a : Asset) : Option DateTime × Bool :=
  match a.exifDT with
  | some dt => (some dt, false)
  | none =>
  match a.jsonDT with
  | some dt => (some dt, false)
  | none =>
  match datetime_from_filename (basename a.path) with
  | some dt => (some dt, true)
  | none => (a.mtime, false)

/-- The module-level mutable state of sort_photo.py. -/
structure State where
  hash_index : List (String × String)
  duplicate_files : List String
  unclassified_files : List String
  filename_fallback_files : List String
  fs : List String
deriving DecidableEq

/-- Model of `process_media` of sort_photo.py: hash lookup first, short-circuit on
a duplicate; otherwise resolve a timestamp, file the asset (classified or
unclassified), and record the digest. -/
def process_media (st : State) (a : Asset) : State :=
  match alookup st.hash_index a.digest with
  | some prior =>
    { st with duplicate_files := st.duplicate_files ++ [a.path ++ " -> " ++ prior] }
  | none =>
    match resolve_datetime a with
    | (none, _) =>
      let r := safe_copy st.fs a.path UNCLASSIFIED_DIR
      { st with
        unclassified_files := st.unclassified_files ++ [a.path],
        fs := r.1,
        hash_index := st.hash_index ++ [(a.digest, r.2)] }
    | (some dt, fb) =>
      let folder :=
        TARGET_DIR ++ "/" ++ Nat.repr dt.year ++ "/" ++ pad2 dt.month ++ "/" ++ pad2 dt.day
      let r := safe_copy st.fs a.path folder
      { st with
        filename_fallback_files :=
          if fb then st.filename_fallback_files ++ [a.path] else st.filename_fallback_files,
        fs := r.1,
        hash_index := st.hash_index ++ [(a.digest, r.2)] }

end sort_photo

/-! ### google_takeout_organizer_final.py -/

namespace organizer

def TARGET_DIR : String := "final"

/-- Model of `datetime_from_filename` of the organizer: one pattern with optional
separators; `datetime` rejection yields nothing. -/
def datetime_from_filename (filename : String) : Option DateTime :=
  toValid (searchWith pOrgAt filename.data)

/-- One media asset with the outcomes of its external readers: `exif`
from `read_exif` (timestamp and GPS pair), `sidecar` from
`read_metadata_json`, `videoTime` from `read_video_time` (ffprobe),
`mtime` from `os.path.getmtime` (nothing when the call raises). -/
structure Asset where
  path : String
  exif : Option DateTime × Option (ℚ × ℚ)
  sidecar : Option DateTime × Option (ℚ × ℚ)
  videoTime : Option DateTime
  mtime : Option DateTime
deriving DecidableEq

/-- Model of `path.lower().endswith((".mp4", ".mov"))`. -/
def isVideoPath (p : String) : Bool := lowerEndsWith p (".mp4") || lowerEndsWith p (".mov")

/-- Model of `resolve_datetime_and_gps` of the organizer: the ordered fallback
chain.  Each stage is kept only when it yields a timestamp; the video
probe runs only for video extensions; the last two stages never carry a
coordinate. -/
def resolve_datetime_and_gps (a : Asset) : Option DateTime × Option (ℚ × ℚ) :=
  match a.exif with
  | (some dt, gps) => (some dt, gps)
  | (none, _) =>
  match a.sidecar with
  | (some dt, gps) => (some dt, gps)
  | (none, _) =>
  match (if isVideoPath a.path then a.videoTime else none) with
  | some dt => (some dt, none)
  | none =>
  match datetime_from_filename (basename a.path) with
  | some dt => (some dt, none)
  | none => (a.mtime, none)

end organizer

namespace organizer

/-- Spec-side chain: the ordered list of metadata sources of the
organizer, each an optional timestamp with an optional coordinate. -/
def orderedSources (a : Asset) : List (Option DateTime × Option (ℚ × ℚ)) :=
  [a.exif, a.sidecar,
    ((if isVideoPath a.path then a.videoTime else none), none),
    (datetime_from_filename (basename a.path), none),
    (a.mtime, none)]

/-- Modelled from the spec wording of the resolver contract: iterate the
ordered sources and return the first one that yields a timestamp, with no
merging across sources; total failure gives the empty moment. -/
def firstSuccess : List (Option DateTime × Option (ℚ × ℚ)) → Option DateTime × Option (ℚ × ℚ)
  | [] => (none, none)
  | (some dt, g) :: _ => (some dt, g)
  | (none, _) :: rest => firstSuccess rest

/-- A reverse-geocoded place, `(name, cc)` of the first backend result. -/
structure Place where
  city : String
  country : String
deriving DecidableEq

/-- The three append sites of `reverse_geocode_failed`: the zero
coordinate guard, an empty backend result, and a backend exception. -/
inductive GeoFail where
  | zero (lat lon : ℚ)
  | noResult (lat lon : ℚ)
  | backendFailure (lat lon : ℚ)
deriving DecidableEq

/-- Outcome of one `rg.search` invocation: a first result carrying the
optional `name` and `cc` fields, an empty result list, or an exception. -/
inductive BackendOutcome where
  | found (city country : Option String)
  | empty
  | failure
deriving DecidableEq

/-- Python `round` rounds ties to even.  The script rounds float
coordinates; the model works on the exact rational values. -/
def roundHalfEven (q : ℚ) : ℤ :=
  if q - ⌊q⌋ < 1/2 then ⌊q⌋
  else if 1/2 < q - ⌊q⌋ then ⌊q⌋ + 1
  else if ⌊q⌋ % 2 = 0 then ⌊q⌋ else ⌊q⌋ + 1

/-- Model of `round(q, 4)`, the rounding used to build geo cache keys. -/
def pyRound4 (q : ℚ) : ℚ := (roundHalfEven (q * 10000) : ℚ) / 10000

/-- The geocoding state of the organizer: the persistent cache (keyed by
the rounded coordinate pair, standing for the formatted key string), the
geocode anomaly list, and a count of backend invocations. -/
structure GeoState where
  geo_cache : List ((ℚ × ℚ) × Option Place)
  reverse_geocode_failed : List GeoFail
  backendCalls : Nat
deriving DecidableEq

/-- Model of `reverse_geocode_city_offline` of the organizer.  The backend stands
for `rg.search`; each invocation is counted.  A stored `none` is the
explicit negative cache entry the script writes as JSON null. -/
def reverse_geocode_city_offline (backend : ℚ → ℚ → BackendOutcome)
    (st : GeoState) (lat lon : ℚ) : GeoState × Option Place :=
  if |lat| < 1/1000 ∧ |lon| < 1/1000 then
    ({ st with reverse_geocode_failed := st.reverse_geocode_failed ++ [.zero lat lon] }, none)
  else
    let key := (pyRound4 lat, pyRound4 lon)
    match alookup st.geo_cache key with
    | some cached => (st, cached)
    | none =>
      match backend lat lon with
      | .failure =>
        ({ st with
            reverse_geocode_failed := st.reverse_geocode_failed ++ [.backendFailure lat lon],
            geo_cache := st.geo_cache ++ [(key, none)],
            backendCalls := st.backendCalls + 1 }, none)
      | .empty =>
        ({ st with
            reverse_geocode_failed := st.reverse_geocode_failed ++ [.noResult lat lon],
            geo_cache := st.geo_cache ++ [(key, none)],
            backendCalls := st.backendCalls + 1 }, none)
      | .found c k =>
        let place : Option Place :=
          match c, k with
          | some cs, some ks => if cs ≠ "" ∧ ks ≠ "" then some ⟨cs, ks⟩ else none
          | _, _ => none
        ({ st with
            geo_cache := st.geo_cache ++ [(key, place)],
            backendCalls := st.backendCalls + 1 }, place)

/-- Model of `dt.strftime` with the year-month-day format used for map popups. -/
def fmtDate (dt : DateTime) : String :=
  Nat.repr dt.year ++ "-" ++ pad2 dt.month ++ "-" ++ pad2 dt.day

/-- Model of `defaultdict(int)` increment. -/
def bump {α : Type} [DecidableEq α] : List (α × Nat) → α → List (α × Nat)
  | [], k => [(k, 1)]
  | (a, n) :: rest, k => if k = a then (a, n + 1) :: rest else (a, n) :: bump rest k

/-- Model of `defaultdict(set).add`. -/
def addToDaySet : List (String × List Place) → String → Place → List (String × List Place)
  | [], k, p => [(k, [p])]
  | (a, ps) :: rest, k, p =>
    if k = a then (a, if p ∈ ps then ps else ps ++ [p]) :: rest
    else (a, ps) :: addToDaySet rest k p

/-- The module-level mutable state of the organizer. -/
structure OrgState where
  fs : List String
  geo : GeoState
  unclassified_files : List String
  gps_points : List (ℚ × ℚ × String × Place)
  gps_by_day : List (String × List Place)
  year_city_count : List ((Nat × Place) × Nat)
  city_total_count : List (Place × Nat)
deriving DecidableEq

/-- Model of `process_media` of the organizer: resolve, return at once when no
timestamp was found, otherwise copy into the day bucket and, when a
coordinate and a place are available, aggregate.  The source appends to
`unclassified_files` inside `resolve_datetime_and_gps`, in exactly the
case where the resolver returns no timestamp; the append is performed
here, where the state lives. -/
def process_media (backend : ℚ → ℚ → BackendOutcome) (st : OrgState) (a : Asset) : OrgState :=
  match resolve_datetime_and_gps a with
  | (none, _) => { st with unclassified_files := st.unclassified_files ++ [a.path] }
  | (some dt, gps) =>
    let day_dir := TARGET_DIR ++ "/" ++ Nat.repr dt.year ++ "/" ++ pad2 dt.month ++ "/" ++ pad2 dt.day
    let r := safe_copy st.fs a.path day_dir
    let st1 : OrgState := { st with fs := r.1 }
    match gps with
    | none => st1
    | some c =>
      let g := reverse_geocode_city_offline backend st1.geo c.1 c.2
      let st2 : OrgState := { st1 with geo := g.1 }
      match g.2 with
      | none => st2
      | some place =>
        { st2 with
          gps_points := st2.gps_points ++ [(c.1, c.2, fmtDate dt, place)],
          gps_by_day := addToDaySet st2.gps_by_day day_dir place,
          year_city_count := bump st2.year_city_count (dt.year, place),
          city_total_count := bump st2.city_total_count place }

/-- The GPS triple conversion `conv` inside `read_exif`: the tag stores
degrees, minutes and seconds as rationals. -/
def conv (d m s : ℚ) : ℚ := d + m / 60 + s / 3600

/-- Hemisphere application of `read_exif`: latitude is negated unless the
reference tag reads N. -/
def applyLatRef (ref : String) (v : ℚ) : ℚ := if ref = "N" then v else -v

/-- Hemisphere application of `read_exif`: longitude is negated unless
the reference tag reads E. -/
def applyLonRef (ref : String) (v : ℚ) : ℚ := if ref = "E" then v else -v

end organizer

/-! ### rerun_version.py -/

namespace rerun_version

/-- Model of `safe_copy(src, dst)` of rerun_version.py: create the parent
directory, then copy only when the destination path does not already
exist.  It never renames: an occupied destination is simply left as is
and the occupied path is returned. -/
def safe_copy (fs : List String) (dst : String) : List String × String :=
  if dst ∈ fs then (fs, dst) else (fs ++ [dst], dst)

end rerun_version

/-! ### test_function.py -/

namespace test_function

/-- Model of `convert_to_decimal` of test_function.py, on the three entries of the
degrees/minutes/seconds list. -/
def convert_to_decimal (d m s : ℚ) : ℚ := d + m / 60.0 + s / 3600.0

end test_function

/-! ### Concrete inputs used by witnesses and counterexamples -/

/-- A fingerprint-index state already holding one filed digest. -/
def stDup : sort_photo.State :=
  ⟨[("h1", "photo/2020/01/01/a.jpg")], [], [], [], []⟩

/-- An asset whose digest is already in the index. -/
def aDup : sort_photo.Asset := ⟨"source/a.jpg", "h1", none, none, none⟩

/-- The same file but with every metadata reader yielding a value: the
duplicate branch may not depend on any of it. -/
def aDupMeta : sort_photo.Asset :=
  ⟨"source/a.jpg", "h1", some ⟨2019, 5, 5, 1, 2, 3⟩, some ⟨2018, 1, 1, 0, 0, 0⟩,
    some ⟨2017, 2, 2, 0, 0, 0⟩⟩

/-- The empty sort_photo state. -/
def stEmpty : sort_photo.State := ⟨[], [], [], [], []⟩

/-- An asset no source can date: no embedded data, no sidecar, no date in
the name, and a failing mtime call. -/
def aNoDate : sort_photo.Asset := ⟨"source/noinfo.bin", "h2", none, none, none⟩

/-- The organizer twin of `aNoDate`. -/
def aDrop : organizer.Asset := ⟨"source/noinfo.bin", (none, none), (none, none), none, none⟩

/-- The empty organizer state. -/
def oSt0 : organizer.OrgState := ⟨[], ⟨[], [], 0⟩, [], [], [], [], []⟩

/-- A backend that always reports an empty result list. -/
def bEmpty : ℚ → ℚ → organizer.BackendOutcome := fun _ _ => .empty

/-- A backend that always reports one hit with both fields present. -/
def bKH : ℚ → ℚ → organizer.BackendOutcome :=
  fun _ _ => .found (some ("Kaohsiung")) (some ("TW"))

/-- The empty geocoding state. -/
def gSt0 : organizer.GeoState := ⟨[], [], 0⟩

/-- The geocoding state after resolving the coordinate pair of one
thousandth, which is not degenerate and writes a cache entry. -/
def gSt1 : organizer.GeoState :=
  (organizer.reverse_geocode_city_offline bKH gSt0 (1/1000) (1/1000)).1

/-- A geocoding state with a negative cache entry for the key (1/2, 1/2). -/
def gHit : organizer.GeoState := ⟨[((1/2, 1/2), none)], [], 0⟩

/-- Filename with an invalid month in its eight-digit run. -/
def fnInvalid : String := "IMG_20231305.jpg"

/-- Filename with an invalid month and an invalid day. -/
def fnInvalid2 : String := "IMG_20231399.jpg"

/-- Filename carrying a valid date and a time suffix. -/
def fnValid : String := "IMG_20230405_120000.jpg"

/-- Filename whose only date is outside the 20xx anchor. -/
def fn1999 : String := "19991231.jpg"

/-- An arbitrary filesystem timestamp. -/
def tJun : DateTime := ⟨2024, 6, 1, 12, 0, 0⟩

/-- Another arbitrary filesystem timestamp. -/
def tDec : DateTime := ⟨2005, 12, 31, 8, 30, 0⟩

/-- An asset whose name holds only the invalid date, with a usable mtime. -/
def aInvalid : sort_photo.Asset :=
  ⟨"source/IMG_20231305.jpg", "h3", none, none, some tJun⟩

/-- An asset whose name holds only a 1999 date, with a usable mtime. -/
def a1999 : sort_photo.Asset := ⟨"source/19991231.jpg", "h4", none, none, some tDec⟩

/-- The destination path used by the rerun-variant counterexample. -/
def cexDst : String := "final/a.jpg"

/-! ### Helper lemmas -/

lemma dv_le_of_isDig {c : Char} (h : isDig c = true) : dv c ≤ 9 := by
  simp only [isDig, Bool.and_eq_true, decide_eq_true_eq] at h
  simp only [dv]
  omega

lemma alookup_append_fresh {α β : Type} [DecidableEq α] (l : List (α × β)) (k : α) (v : β)
    (h : alookup l k = none) : alookup (l ++ [(k, v)]) k = some v := by
  induction l with
  | nil => simp [alookup]
  | cons hd tl ih =>
    obtain ⟨a, b⟩ := hd
    simp only [alookup] at h ⊢
    by_cases hk : k = a
    · simp [hk] at h
    · simp only [hk, if_false] at h ⊢
      exact ih h

lemma searchWith_some {α : Type} (f : List Char → Option α) (l : List Char) (r : α)
    (h : searchWith f l = some r) : ∃ l2, f l2 = some r := by
  induction l with
  | nil => simp [searchWith] at h
  | cons c rest ih =>
    simp only [searchWith] at h
    cases hf : f (c :: rest) with
    | some v =>
      rw [hf] at h
      simp at h
      exact ⟨c :: rest, by rw [hf, h]⟩
    | none =>
      rw [hf] at h
      simp at h
      exact ih h

lemma rgc_zero (backend : ℚ → ℚ → organizer.BackendOutcome) (st : organizer.GeoState)
    (lat lon : ℚ) (hlat : |lat| < 1/1000) (hlon : |lon| < 1/1000) :
    organizer.reverse_geocode_city_offline backend st lat lon =
      ({ st with reverse_geocode_failed :=
          st.reverse_geocode_failed ++ [.zero lat lon] }, none) := by
  simp only [organizer.reverse_geocode_city_offline]
  rw [if_pos ⟨hlat, hlon⟩]

lemma rgc_hit (backend : ℚ → ℚ → organizer.BackendOutcome) (st : organizer.GeoState)
    (lat lon : ℚ) (cached : Option organizer.Place)
    (hdeg : ¬(|lat| < 1/1000 ∧ |lon| < 1/1000))
    (hc : alookup st.geo_cache (organizer.pyRound4 lat, organizer.pyRound4 lon) = some cached) :
    organizer.reverse_geocode_city_offline backend st lat lon = (st, cached) := by
  simp only [organizer.reverse_geocode_city_offline]
  rw [if_neg hdeg]
  simp [hc]

lemma rgc_miss (backend : ℚ → ℚ → organizer.BackendOutcome) (st : organizer.GeoState)
    (lat lon : ℚ) (hdeg : ¬(|lat| < 1/1000 ∧ |lon| < 1/1000))
    (hm : alookup st.geo_cache (organizer.pyRound4 lat, organizer.pyRound4 lon) = none) :
    (organizer.reverse_geocode_city_offline backend st lat lon).1.geo_cache =
      st.geo_cache ++ [((organizer.pyRound4 lat, organizer.pyRound4 lon),
        (organizer.reverse_geocode_city_offline backend st lat lon).2)] ∧
    (organizer.reverse_geocode_city_offline backend st lat lon).1.backendCalls =
      st.backendCalls + 1 := by
  simp only [organizer.reverse_geocode_city_offline]
  rw [if_neg hdeg]
  simp only [hm]
  cases hb : backend lat lon with
  | failure => exact ⟨rfl, rfl⟩
  | empty => exact ⟨rfl, rfl⟩
  | found c k => exact ⟨rfl, rfl⟩

lemma ndeg_milli : ¬(|(1/1000 : ℚ)| < 1/1000 ∧ |(1/1000 : ℚ)| < 1/1000) := by
  intro h
  have h1 := h.1
  rw [abs_of_pos (by norm_num : (0:ℚ) < 1/1000)] at h1
  exact absurd h1 (lt_irrefl _)

lemma ndeg_half : ¬(|(1/2 : ℚ)| < 1/1000 ∧ |(1/2 : ℚ)| < 1/1000) := by
  intro h
  have h1 := h.1
  rw [abs_of_pos (by norm_num : (0:ℚ) < 1/2)] at h1
  exact absurd h1 (by norm_num)

lemma deg_small : |((96 : ℚ)/100000)| < 1/1000 := by
  rw [abs_of_pos (by norm_num : (0:ℚ) < 96/100000)]
  norm_num

lemma deg_zero : |(0 : ℚ)| < 1/1000 := by
  rw [abs_zero]
  norm_num

lemma pyRound4_milli : organizer.pyRound4 (1/1000) = 1/1000 := by
  have h1 : ((1:ℚ)/1000) * 10000 = 10 := by norm_num
  have h2 : ⌊(10 : ℚ)⌋ = 10 := by
    rw [Int.floor_eq_iff]
    norm_num
  rw [organizer.pyRound4, h1, organizer.roundHalfEven, h2]
  rw [if_pos (by push_cast; norm_num)]
  push_cast
  norm_num

lemma pyRound4_small : organizer.pyRound4 (96/100000) = 1/1000 := by
  have h1 : ((96:ℚ)/100000) * 10000 = 48/5 := by norm_num
  have h2 : ⌊(48/5 : ℚ)⌋ = 9 := by
    rw [Int.floor_eq_iff]
    norm_num
  rw [organizer.pyRound4, h1, organizer.roundHalfEven, h2]
  rw [if_neg (by push_cast; norm_num), if_pos (by push_cast; norm_num)]
  push_cast
  norm_num

lemma pyRound4_half : organizer.pyRound4 (1/2) = 1/2 := by
  have h1 : ((1:ℚ)/2) * 10000 = 5000 := by norm_num
  have h2 : ⌊(5000 : ℚ)⌋ = 5000 := by
    rw [Int.floor_eq_iff]
    norm_num
  rw [organizer.pyRound4, h1, organizer.roundHalfEven, h2]
  rw [if_pos (by push_cast; norm_num)]
  push_cast
  norm_num

lemma gSt1_eq :
    gSt1 = ⟨[((1/1000, 1/1000), some ⟨"Kaohsiung", "TW"⟩)], [], 1⟩ := by
  have hm : alookup gSt0.geo_cache
      (organizer.pyRound4 (1/1000), organizer.pyRound4 (1/1000)) = none := rfl
  rw [gSt1, organizer.reverse_geocode_city_offline, if_neg ndeg_milli]
  simp only [hm, bKH, gSt0, pyRound4_milli, alookup]
  rw [if_pos (⟨by decide, by decide⟩ : ¬"Kaohsiung" = "" ∧ ¬"TW" = "")]
  simp

lemma p1At_year (l : List Char) (y m d : Nat) (h : p1At l = some (y, m, d)) :
    2000 ≤ y ∧ y ≤ 2099 := by
  simp only [p1At] at h
  split at h
  · split at h
    · rename_i hcond
      simp only [Bool.and_eq_true] at hcond
      rename_i c0 c1 y3 y4 m1 m2 d1 d2 rest
      have b3 := dv_le_of_isDig (show isDig y3 = true by tauto)
      have b4 := dv_le_of_isDig (show isDig y4 = true by tauto)
      simp only [Option.some.injEq, Prod.mk.injEq] at h
      obtain ⟨hy, -, -⟩ := h
      omega
    · exact absurd h (by simp)
  · exact absurd h (by simp)

lemma p2At_year (l : List Char) (y m d : Nat) (h : p2At l = some (y, m, d)) :
    2000 ≤ y ∧ y ≤ 2099 := by
  simp only [p2At] at h
  split at h
  · split at h
    · rename_i hcond
      simp only [Bool.and_eq_true] at hcond
      rename_i c0 c1 y3 y4 s1 m1 m2 s2 d1 d2 rest
      have b3 := dv_le_of_isDig (show isDig y3 = true by tauto)
      have b4 := dv_le_of_isDig (show isDig y4 = true by tauto)
      simp only [Option.some.injEq, Prod.mk.injEq] at h
      obtain ⟨hy, -, -⟩ := h
      omega
    · exact absurd h (by simp)
  · exact absurd h (by simp)

lemma p3At_year (l : List Char) (y m d : Nat) (h : p3At l = some (y, m, d)) :
    2000 ≤ y ∧ y ≤ 2099 := by
  simp only [p3At] at h
  split at h
  · split at h
    · rename_i hcond
      simp only [Bool.and_eq_true] at hcond
      rename_i c0 c1 y3 y4 m1 m2 d1 d2 s t1 t2 t3 t4 t5 t6 rest
      have b3 := dv_le_of_isDig (show isDig y3 = true by tauto)
      have b4 := dv_le_of_isDig (show isDig y4 = true by tauto)
      simp only [Option.some.injEq, Prod.mk.injEq] at h
      obtain ⟨hy, -, -⟩ := h
      omega
    · exact absurd h (by simp)
  · exact absurd h (by simp)

lemma pOrgAt_year (l : List Char) (y m d : Nat) (h : pOrgAt l = some (y, m, d)) :
    2000 ≤ y ∧ y ≤ 2099 := by
  simp only [pOrgAt] at h
  split at h
  · split at h
    · rename_i hcond
      simp only [Bool.and_eq_true] at hcond
      rename_i c0 c1 y3 y4 rest
      have b3 := dv_le_of_isDig (show isDig y3 = true by tauto)
      have b4 := dv_le_of_isDig (show isDig y4 = true by tauto)
      split at h
      · split at h
        · split at h
          · split at h
            · simp only [Option.some.injEq, Prod.mk.injEq] at h
              obtain ⟨hy, -, -⟩ := h
              omega
            · exact absurd h (by simp)
          · exact absurd h (by simp)
        · exact absurd h (by simp)
      · exact absurd h (by simp)
    · exact absurd h (by simp)
  · exact absurd h (by simp)

/-! ### Claim theorems -/

/-- Claim C1: when the content digest of an asset is already present in the
fingerprint index, `process_media` performs no new placement (filesystem
and index unchanged) and only appends a duplicate record naming the
duplicate path and the previously filed destination; and because the
digest lookup happens before any resolution or placement work, the result
is independent of every metadata field of the asset. -/
theorem C1_duplicate_short_circuit :
    (∀ (st : sort_photo.State) (a : sort_photo.Asset) (prior : String),
      alookup st.hash_index a.digest = some prior →
      sort_photo.process_media st a =
        { st with duplicate_files := st.duplicate_files ++ [a.path ++ " -> " ++ prior] }) ∧
    (∀ (st : sort_photo.State) (a b : sort_photo.Asset) (prior : String),
      alookup st.hash_index a.digest = some prior →
      b.path = a.path → b.digest = a.digest →
      sort_photo.process_media st b = sort_photo.process_media st a) := by
  have key : ∀ (st : sort_photo.State) (a : sort_photo.Asset) (prior : String),
      alookup st.hash_index a.digest = some prior →
      sort_photo.process_media st a =
        { st with duplicate_files := st.duplicate_files ++ [a.path ++ " -> " ++ prior] } := by
    intro st a prior h
    simp [sort_photo.process_media, h]
  refine ⟨key, fun st a b prior h hp hd => ?_⟩
  rw [key st b prior (by rw [hd]; exact h), key st a prior h, hp]

/-- Witness for C1 at a concrete state and asset: the asset whose digest
is filed is only logged, and the richly dated twin gives the same state. -/
theorem C1_witness :
    sort_photo.process_media stDup aDup =
      { stDup with duplicate_files := ["source/a.jpg" ++ " -> " ++ "photo/2020/01/01/a.jpg"] } ∧
    sort_photo.process_media stDup aDupMeta = sort_photo.process_media stDup aDup :=
  ⟨C1_duplicate_short_circuit.1 stDup aDup ("photo/2020/01/01/a.jpg") (by decide),
    C1_duplicate_short_circuit.2 stDup aDup aDupMeta ("photo/2020/01/01/a.jpg")
      (by decide) (by decide) (by decide)⟩

/-- Claim C2: the organizer resolver equals the spec chain that tries the
sources embedded metadata, sidecar, video probe, filename, mtime in that
order and returns the first that yields a timestamp, with no merging; in
particular when embedded metadata and sidecar both carry timestamps, the
embedded one is returned. -/
theorem C2_ordered_fallback_chain :
    (∀ a : organizer.Asset,
      organizer.resolve_datetime_and_gps a =
        organizer.firstSuccess (organizer.orderedSources a)) ∧
    (∀ (a : organizer.Asset) (t u : DateTime) (g g2 : Option (ℚ × ℚ)),
      a.exif = (some t, g) → a.sidecar = (some u, g2) →
      (organizer.resolve_datetime_and_gps a).1 = some t) := by
  constructor
  · intro a
    obtain ⟨p, ⟨ed, eg⟩, ⟨sd, sg⟩, vt, mt⟩ := a
    cases ed with
    | some t => simp [organizer.resolve_datetime_and_gps, organizer.orderedSources,
        organizer.firstSuccess]
    | none =>
      cases sd with
      | some t => simp [organizer.resolve_datetime_and_gps, organizer.orderedSources,
          organizer.firstSuccess]
      | none =>
        cases hv : (if organizer.isVideoPath p then vt else none) with
        | some t => simp [organizer.resolve_datetime_and_gps, organizer.orderedSources,
            organizer.firstSuccess, hv]
        | none =>
          cases hf : organizer.datetime_from_filename (basename p) with
          | some t => simp [organizer.resolve_datetime_and_gps, organizer.orderedSources,
              organizer.firstSuccess, hv, hf]
          | none =>
            cases mt with
            | some t => simp [organizer.resolve_datetime_and_gps, organizer.orderedSources,
                organizer.firstSuccess, hv, hf]
            | none => simp [organizer.resolve_datetime_and_gps, organizer.orderedSources,
                organizer.firstSuccess, hv, hf]
  · intro a t u g g2 he hs
    obtain ⟨p, ⟨ed, eg⟩, ⟨sd, sg⟩, vt, mt⟩ := a
    simp only [Prod.mk.injEq] at he
    obtain ⟨he1, he2⟩ := he
    subst he1
    simp [organizer.resolve_datetime_and_gps]

/-- Witness for C2: an asset with both an embedded timestamp and a
different sidecar timestamp resolves to the embedded one. -/
theorem C2_witness :
    (organizer.resolve_datetime_and_gps
      ⟨"source/c.jpg", (some ⟨2020, 1, 2, 0, 0, 0⟩, none),
        (some ⟨2111, 3, 4, 0, 0, 0⟩, none), none, none⟩).1 =
      some ⟨2020, 1, 2, 0, 0, 0⟩ :=
  C2_ordered_fallback_chain.2
    ⟨"source/c.jpg", (some ⟨2020, 1, 2, 0, 0, 0⟩, none),
      (some ⟨2111, 3, 4, 0, 0, 0⟩, none), none, none⟩
    ⟨2020, 1, 2, 0, 0, 0⟩ ⟨2111, 3, 4, 0, 0, 0⟩ none none rfl rfl

/-- Claim C7: the resolver never returns a coordinate without a
timestamp; a returned coordinate always comes from the embedded metadata
or, when the embedded block has no timestamp, from the sidecar; and when
neither of those two sources has a timestamp the coordinate is absent
(the video, filename and mtime stages never supply one). -/
theorem C7_resolved_moment_invariant :
    ∀ a : organizer.Asset,
      ((organizer.resolve_datetime_and_gps a).2.isSome →
        (organizer.resolve_datetime_and_gps a).1.isSome) ∧
      (∀ c : ℚ × ℚ, (organizer.resolve_datetime_and_gps a).2 = some c →
        (a.exif.1.isSome ∧ a.exif.2 = some c) ∨
        (a.exif.1 = none ∧ a.sidecar.1.isSome ∧ a.sidecar.2 = some c)) ∧
      (a.exif.1 = none → a.sidecar.1 = none →
        (organizer.resolve_datetime_and_gps a).2 = none) := by
  intro a
  obtain ⟨p, ⟨ed, eg⟩, ⟨sd, sg⟩, vt, mt⟩ := a
  cases ed with
  | some t => simp [organizer.resolve_datetime_and_gps]
  | none =>
    cases sd with
    | some t => simp [organizer.resolve_datetime_and_gps]
    | none =>
      cases hv : (if organizer.isVideoPath p then vt else none) with
      | some t => simp [organizer.resolve_datetime_and_gps, hv]
      | none =>
        cases hf : organizer.datetime_from_filename (basename p) with
        | some t => simp [organizer.resolve_datetime_and_gps, hv, hf]
        | none =>
          cases mt with
          | some t => simp [organizer.resolve_datetime_and_gps, hv, hf]
          | none => simp [organizer.resolve_datetime_and_gps, hv, hf]

/-- Witness for C7 at a concrete asset with no embedded and no sidecar
timestamp: the resolver reports no coordinate. -/
theorem C7_witness : (organizer.resolve_datetime_and_gps aDrop).2 = none :=
  (C7_resolved_moment_invariant aDrop).2.2 rfl rfl

/-- Claim C5: for a coordinate whose components are both within the
epsilon 1/1000 of zero, `reverse_geocode_city_offline` returns absent and
appends a zero-coordinate geocode anomaly, and nothing else changes; in
particular the result does not depend on the backend, which is therefore
never invoked (the backend call counter is unchanged). -/
theorem C5_zero_coordinate (backend : ℚ → ℚ → organizer.BackendOutcome)
    (st : organizer.GeoState) (lat lon : ℚ)
    (hlat : |lat| < 1/1000) (hlon : |lon| < 1/1000) :
    organizer.reverse_geocode_city_offline backend st lat lon =
      ({ st with reverse_geocode_failed :=
          st.reverse_geocode_failed ++ [.zero lat lon] }, none) ∧
    (organizer.reverse_geocode_city_offline backend st lat lon).1.backendCalls =
      st.backendCalls ∧
    organizer.reverse_geocode_city_offline backend st lat lon =
      organizer.reverse_geocode_city_offline bEmpty st lat lon := by
  refine ⟨rgc_zero backend st lat lon hlat hlon, ?_, ?_⟩
  · rw [rgc_zero backend st lat lon hlat hlon]
  · rw [rgc_zero backend st lat lon hlat hlon, rgc_zero bEmpty st lat lon hlat hlon]

/-- Witness for C5 at the origin and the empty geocoding state. -/
theorem C5_witness :
    organizer.reverse_geocode_city_offline bEmpty gSt0 0 0 =
      ({ gSt0 with reverse_geocode_failed := [.zero 0 0] }, none) :=
  (C5_zero_coordinate bEmpty gSt0 0 0 deg_zero deg_zero).1

/-- Claim C6: the degrees/minutes/seconds conversion of both
`convert_to_decimal` (test_function.py) and `conv` inside `read_exif`
(the organizer) is degrees + minutes/60 + seconds/3600; a hemisphere
reference of S (latitude) or W (longitude) negates the value; and the
triple (22, 36, 18.99) lands within 1/100000 of 22.60527. -/
theorem C6_dms_to_decimal :
    (∀ d m s : ℚ, test_function.convert_to_decimal d m s = d + m / 60 + s / 3600) ∧
    (∀ d m s : ℚ, organizer.conv d m s = test_function.convert_to_decimal d m s) ∧
    (∀ v : ℚ, organizer.applyLatRef ("S") v = -v) ∧
    (∀ v : ℚ, organizer.applyLonRef ("W") v = -v) ∧
    |test_function.convert_to_decimal 22 36 (1899/100) - 2260527/100000| < 1/100000 := by
  refine ⟨fun d m s => ?_, fun d m s => ?_, fun v => ?_, fun v => ?_, ?_⟩
  · rw [test_function.convert_to_decimal]
    norm_num
  · rw [test_function.convert_to_decimal, organizer.conv]
    norm_num
  · rw [organizer.applyLatRef, if_neg (by decide : ¬("S" : String) = "N")]
  · rw [organizer.applyLonRef, if_neg (by decide : ¬("W" : String) = "E")]
  · rw [test_function.convert_to_decimal]
    rw [abs_of_pos (by norm_num)]
    norm_num

/-- Counterexample for C3: the organizer pipeline, one of the two cited
implementations, does not file an asset that resolves to no timestamp.
With every source empty, `process_media` only logs the path as
unclassified and returns: the filesystem receives no copy of any kind
(and the organizer keeps no fingerprint index at all, so no digest is
recorded), contradicting the claim that such an asset is copied into the
unclassified bucket and indexed. -/
theorem C3_counterexample :
    organizer.process_media bEmpty oSt0 aDrop =
      { oSt0 with unclassified_files := ["source/noinfo.bin"] } ∧
    (organizer.process_media bEmpty oSt0 aDrop).fs = [] := by
  constructor
  · rfl
  · rfl

/-- Claim C3 (amended to the sort_photo pipeline, the cited variant that
owns the fingerprint index): an asset none of whose sources yields a
timestamp is still filed: `process_media` copies it into the fixed
unclassified bucket (a genuinely new file), logs it as unclassified, and
records its digest against the new destination exactly like a classified
placement, so a later asset with the same digest is found in the index.
In the organizer variant the asset is only logged, not copied. -/
theorem C3_unclassified_filed :
    ∀ (st : sort_photo.State) (a : sort_photo.Asset),
      alookup st.hash_index a.digest = none →
      a.exifDT = none → a.jsonDT = none →
      sort_photo.datetime_from_filename (basename a.path) = none →
      a.mtime = none →
      sort_photo.process_media st a =
        { st with
          unclassified_files := st.unclassified_files ++ [a.path],
          fs := (safe_copy st.fs a.path sort_photo.UNCLASSIFIED_DIR).1,
          hash_index := st.hash_index ++
            [(a.digest, (safe_copy st.fs a.path sort_photo.UNCLASSIFIED_DIR).2)] } ∧
      (safe_copy st.fs a.path sort_photo.UNCLASSIFIED_DIR).1 =
        st.fs ++ [(safe_copy st.fs a.path sort_photo.UNCLASSIFIED_DIR).2] ∧
      (safe_copy st.fs a.path sort_photo.UNCLASSIFIED_DIR).2 ∉ st.fs ∧
      alookup (sort_photo.process_media st a).hash_index a.digest =
        some (safe_copy st.fs a.path sort_photo.UNCLASSIFIED_DIR).2 := by
  intro st a hl he hj hf hm
  have hres : sort_photo.resolve_datetime a = (none, false) := by
    rw [sort_photo.resolve_datetime, he, hj, hf, hm]
  have hpm : sort_photo.process_media st a =
      { st with
        unclassified_files := st.unclassified_files ++ [a.path],
        fs := (safe_copy st.fs a.path sort_photo.UNCLASSIFIED_DIR).1,
        hash_index := st.hash_index ++
          [(a.digest, (safe_copy st.fs a.path sort_photo.UNCLASSIFIED_DIR).2)] } := by
    rw [sort_photo.process_media, hl, hres]
  refine ⟨hpm, (safe_copy_spec st.fs a.path sort_photo.UNCLASSIFIED_DIR).2.1,
    (safe_copy_spec st.fs a.path sort_photo.UNCLASSIFIED_DIR).1, ?_⟩
  rw [hpm]
  exact alookup_append_fresh st.hash_index a.digest _ hl

/-- Witness for C3 at the empty state and an undatable asset. -/
theorem C3_witness :
    sort_photo.process_media stEmpty aNoDate =
      { stEmpty with
        unclassified_files := ["source/noinfo.bin"],
        fs := (safe_copy stEmpty.fs ("source/noinfo.bin") sort_photo.UNCLASSIFIED_DIR).1,
        hash_index :=
          [("h2", (safe_copy stEmpty.fs ("source/noinfo.bin") sort_photo.UNCLASSIFIED_DIR).2)] } ∧
    alookup (sort_photo.process_media stEmpty aNoDate).hash_index "h2" =
      some (safe_copy stEmpty.fs ("source/noinfo.bin") sort_photo.UNCLASSIFIED_DIR).2 := by
  have h := C3_unclassified_filed stEmpty aNoDate rfl rfl rfl (by decide) rfl
  exact ⟨h.1, h.2.2.2⟩

lemma rgc_calls_le (backend : ℚ → ℚ → organizer.BackendOutcome)
    (st : organizer.GeoState) (lat lon : ℚ) :
    (organizer.reverse_geocode_city_offline backend st lat lon).1.backendCalls ≤
      st.backendCalls + 1 := by
  by_cases hdeg : |lat| < 1/1000 ∧ |lon| < 1/1000
  · rw [rgc_zero backend st lat lon hdeg.1 hdeg.2]
    exact Nat.le_succ _
  · cases hc : alookup st.geo_cache (organizer.pyRound4 lat, organizer.pyRound4 lon) with
    | some cached =>
      rw [rgc_hit backend st lat lon cached hdeg hc]
      exact Nat.le_succ _
    | none =>
      rw [(rgc_miss backend st lat lon hdeg hc).2]

/-- Counterexample for C4: the zero-coordinate guard runs before the
cache lookup, so a cached key does not guarantee the cached answer.  The
call on the pair of one thousandth writes its key with the place
Kaohsiung/TW; the later coordinate 96/100000 rounds to that very key, yet
the call returns absent instead of the cached place, because both of its
components are within 1/1000 of zero and the guard fires first. -/
theorem C4_counterexample :
    alookup gSt1.geo_cache
      (organizer.pyRound4 (96/100000), organizer.pyRound4 (96/100000)) =
      some (some ⟨"Kaohsiung", "TW"⟩) ∧
    (organizer.reverse_geocode_city_offline bKH gSt1 (96/100000) (96/100000)).2 = none := by
  constructor
  · rw [gSt1_eq, pyRound4_small]
    simp [alookup]
  · rw [rgc_zero bKH gSt1 _ _ deg_small deg_small]

/-- Claim C4 (amended: the cached-answer guarantee holds for calls whose
coordinate is not rejected as degenerate; a coordinate with both
components within 1/1000 of zero is answered absent by the zero guard
before the cache is consulted, even when its rounded key is cached —
though still with no backend call).  Once a key is in the cache, a later
call with any non-degenerate coordinate rounding to that key returns the
cached result, Place or absent, with no state change and no backend
invocation; every cache miss writes its outcome, including absent, back
under the key and makes exactly one backend call; and two successive
calls whose coordinates round to the same key make at most one backend
call combined. -/
theorem C4_geo_cache_invariant :
    (∀ (backend : ℚ → ℚ → organizer.BackendOutcome) (st : organizer.GeoState)
      (lat lon : ℚ) (cached : Option organizer.Place),
      ¬(|lat| < 1/1000 ∧ |lon| < 1/1000) →
      alookup st.geo_cache (organizer.pyRound4 lat, organizer.pyRound4 lon) = some cached →
      organizer.reverse_geocode_city_offline backend st lat lon = (st, cached)) ∧
    (∀ (backend : ℚ → ℚ → organizer.BackendOutcome) (st : organizer.GeoState)
      (lat lon : ℚ),
      ¬(|lat| < 1/1000 ∧ |lon| < 1/1000) →
      alookup st.geo_cache (organizer.pyRound4 lat, organizer.pyRound4 lon) = none →
      (organizer.reverse_geocode_city_offline backend st lat lon).1.geo_cache =
        st.geo_cache ++ [((organizer.pyRound4 lat, organizer.pyRound4 lon),
          (organizer.reverse_geocode_city_offline backend st lat lon).2)] ∧
      (organizer.reverse_geocode_city_offline backend st lat lon).1.backendCalls =
        st.backendCalls + 1) ∧
    (∀ (backend : ℚ → ℚ → organizer.BackendOutcome) (st : organizer.GeoState)
      (lat1 lon1 lat2 lon2 : ℚ),
      (organizer.pyRound4 lat1, organizer.pyRound4 lon1) =
        (organizer.pyRound4 lat2, organizer.pyRound4 lon2) →
      (organizer.reverse_geocode_city_offline backend
        (organizer.reverse_geocode_city_offline backend st lat1 lon1).1
          lat2 lon2).1.backendCalls ≤ st.backendCalls + 1) := by
  refine ⟨rgc_hit, rgc_miss, ?_⟩
  intro backend st lat1 lon1 lat2 lon2 hkey
  by_cases h2 : |lat2| < 1/1000 ∧ |lon2| < 1/1000
  · rw [rgc_zero backend _ lat2 lon2 h2.1 h2.2]
    exact rgc_calls_le backend st lat1 lon1
  · by_cases h1 : |lat1| < 1/1000 ∧ |lon1| < 1/1000
    · rw [rgc_zero backend st lat1 lon1 h1.1 h1.2]
      exact rgc_calls_le backend _ lat2 lon2
    · cases hc1 : alookup st.geo_cache (organizer.pyRound4 lat1, organizer.pyRound4 lon1) with
      | some cached =>
        rw [rgc_hit backend st lat1 lon1 cached h1 hc1]
        exact rgc_calls_le backend st lat2 lon2
      | none =>
        have hm := rgc_miss backend st lat1 lon1 h1 hc1
        have hl2 : alookup (organizer.reverse_geocode_city_offline backend st lat1 lon1).1.geo_cache
            (organizer.pyRound4 lat2, organizer.pyRound4 lon2) =
            some ((organizer.reverse_geocode_city_offline backend st lat1 lon1).2) := by
          rw [← hkey, hm.1]
          exact alookup_append_fresh _ _ _ hc1
        rw [rgc_hit backend _ lat2 lon2 _ h2 hl2, hm.2]

/-- Witness for C4 at a concrete cached state: the key (1/2, 1/2) holds
an explicit absent, and the call returns it with no state change. -/
theorem C4_witness :
    organizer.reverse_geocode_city_offline bEmpty gHit (1/2) (1/2) = (gHit, none) :=
  C4_geo_cache_invariant.1 bEmpty gHit (1/2) (1/2) none ndeg_half
    (by rw [pyRound4_half]; simp [gHit, alookup])

/-- Claim C8: a filename match whose date components `datetime` rejects
behaves as a non-match.  Generally, when every pattern match on a
filename carries invalid components, the filename source yields nothing;
concretely, IMG_20231305.jpg (month 13) yields nothing and resolution
falls through to the filesystem mtime, while IMG_20230405_120000.jpg
yields the date 2023-04-05. -/
theorem C8_invalid_calendar_fallthrough :
    (∀ s : String,
      ((searchWith p1At s.data).all fun t => !validDate t.1 t.2.1 t.2.2) = true →
      ((searchWith p2At s.data).all fun t => !validDate t.1 t.2.1 t.2.2) = true →
      ((searchWith p3At s.data).all fun t => !validDate t.1 t.2.1 t.2.2) = true →
      sort_photo.datetime_from_filename s = none) ∧
    sort_photo.datetime_from_filename fnInvalid = none ∧
    sort_photo.resolve_datetime aInvalid = (some tJun, false) ∧
    sort_photo.datetime_from_filename fnValid = some ⟨2023, 4, 5, 0, 0, 0⟩ := by
  refine ⟨?_, by decide, by decide, by decide⟩
  intro s h1 h2 h3
  have e1 : toValid (searchWith p1At s.data) = none := by
    cases hx : searchWith p1At s.data with
    | none => rfl
    | some t =>
      rw [hx] at h1
      simp [Option.all] at h1
      simp [toValid, h1]
  have e2 : toValid (searchWith p2At s.data) = none := by
    cases hx : searchWith p2At s.data with
    | none => rfl
    | some t =>
      rw [hx] at h2
      simp [Option.all] at h2
      simp [toValid, h2]
  have e3 : toValid (searchWith p3At s.data) = none := by
    cases hx : searchWith p3At s.data with
    | none => rfl
    | some t =>
      rw [hx] at h3
      simp [Option.all] at h3
      simp [toValid, h3]
  simp only [sort_photo.datetime_from_filename]
  rw [e1, e2, e3]

/-- Witness for C8: every match on IMG_20231399.jpg is calendar-invalid,
so the filename source yields nothing. -/
theorem C8_witness : sort_photo.datetime_from_filename fnInvalid2 = none :=
  C8_invalid_calendar_fallthrough.1 fnInvalid2 (by decide) (by decide) (by decide)

/-- Claim C10: all four filename date patterns anchor the year as 20
followed by two digits, so any match has a year between 2000 and 2099;
the filename 19991231.jpg therefore yields nothing in either script and
resolution falls through to the filesystem mtime. -/
theorem C10_year_anchor_20xx :
    (∀ (l : List Char) (y m d : Nat),
      searchWith p1At l = some (y, m, d) ∨ searchWith p2At l = some (y, m, d) ∨
      searchWith p3At l = some (y, m, d) ∨ searchWith pOrgAt l = some (y, m, d) →
      2000 ≤ y ∧ y ≤ 2099) ∧
    sort_photo.datetime_from_filename fn1999 = none ∧
    organizer.datetime_from_filename fn1999 = none ∧
    sort_photo.resolve_datetime a1999 = (some tDec, false) := by
  refine ⟨?_, by decide, by decide, by decide⟩
  rintro l y m d (h | h | h | h)
  · obtain ⟨l2, hf⟩ := searchWith_some _ _ _ h
    exact p1At_year l2 y m d hf
  · obtain ⟨l2, hf⟩ := searchWith_some _ _ _ h
    exact p2At_year l2 y m d hf
  · obtain ⟨l2, hf⟩ := searchWith_some _ _ _ h
    exact p3At_year l2 y m d hf
  · obtain ⟨l2, hf⟩ := searchWith_some _ _ _ h
    exact pOrgAt_year l2 y m d hf

/-- Witness for C10: the match on IMG_20230405_120000.jpg has its year in
the 20xx range. -/
theorem C10_witness : 2000 ≤ 2023 ∧ 2023 ≤ 2099 :=
  C10_year_anchor_20xx.1 fnValid.data 2023 4 5 (Or.inl (by decide))

/-- Counterexample for C9: the `safe_copy` of rerun_version.py, one of
the two cited implementations, does not append a numeric suffix when the
destination exists.  With the destination already present, the returned
final path is the occupied path itself, still a member of the existing
files, and the filesystem is unchanged: no unused name is ever chosen. -/
theorem C9_counterexample :
    (rerun_version.safe_copy [cexDst] cexDst).2 ∈ [cexDst] ∧
    (rerun_version.safe_copy [cexDst] cexDst).1 = [cexDst] := by
  constructor
  · decide
  · decide

/-- Claim C9 (amended: the suffix guarantee belongs to the `safe_copy`
shared by sort_photo.py and the organizer; the rerun variant instead
skips the copy when the destination exists).  The shared `safe_copy`
never overwrites: its destination is never an existing file and the copy
adds exactly that file; a free base name is used as is; an occupied base
name gets the first free name of the increasing suffix sequence, every
smaller suffix being occupied.  Directory creation is idempotent.  The
rerun variant also never overwrites: an existing destination leaves the
filesystem unchanged, a missing one receives the copy. -/
theorem C9_collision_safe :
    (∀ (fs : List String) (src dest_dir : String),
      (safe_copy fs src dest_dir).2 ∉ fs ∧
      (safe_copy fs src dest_dir).1 = fs ++ [(safe_copy fs src dest_dir).2] ∧
      (dest_dir ++ "/" ++ basename src ∉ fs →
        (safe_copy fs src dest_dir).2 = dest_dir ++ "/" ++ basename src) ∧
      (dest_dir ++ "/" ++ basename src ∈ fs →
        ∃ i, 1 ≤ i ∧
          (safe_copy fs src dest_dir).2 =
            sc_name dest_dir (splitext (basename src)).1 (splitext (basename src)).2 i ∧
          ∀ j, 1 ≤ j → j < i →
            sc_name dest_dir (splitext (basename src)).1 (splitext (basename src)).2 j ∈ fs)) ∧
    (∀ (dirs : List String) (d : String),
      makedirs (makedirs dirs d) d = makedirs dirs d) ∧
    (∀ (fs : List String) (dst : String),
      (dst ∈ fs → rerun_version.safe_copy fs dst = (fs, dst)) ∧
      (dst ∉ fs → rerun_version.safe_copy fs dst = (fs ++ [dst], dst))) := by
  refine ⟨safe_copy_spec, ?_, ?_⟩
  · intro dirs d
    by_cases h : d ∈ dirs <;> simp [makedirs, h]
  · intro fs dst
    constructor <;> intro h <;> simp [rerun_version.safe_copy, h]

/-- Witness for C9: with photo/a.jpg occupied, copying a.jpg into photo
chooses a suffixed name, and the rerun variant copies into an empty
directory unchanged. -/
theorem C9_witness :
    (∃ i, 1 ≤ i ∧
      (safe_copy ["photo/a.jpg"] ("a.jpg") ("photo")).2 =
        sc_name ("photo") (splitext (basename ("a.jpg"))).1
          (splitext (basename ("a.jpg"))).2 i ∧
      ∀ j, 1 ≤ j → j < i →
        sc_name ("photo") (splitext (basename ("a.jpg"))).1
          (splitext (basename ("a.jpg"))).2 j ∈ ["photo/a.jpg"]) ∧
    rerun_version.safe_copy ([] : List String) cexDst = ([cexDst], cexDst) :=
  ⟨(C9_collision_safe.1 ["photo/a.jpg"] ("a.jpg") ("photo")).2.2.2 (by decide),
    (C9_collision_safe.2.2 [] cexDst).2 (by decide)⟩
